import Mathlib

/-!
# Verification of the agent decision flow of the Query Responder agentic RAG backend

This file gives a shallow embedding of `src/backend/app.py`, centered on
`agent_decision_flow` (the agent orchestrator) and the tool functions it calls:
`retrieve_from_docs`, `check_exact_match`, `search_web`, `check_relevance` and
`check_for_ambiguity`.

Modelling choices:
* External collaborators (the Chroma vector store, the LLM, the Serper web search
  wrapper) are oracles: functions returning `Except String _`, where `.error e`
  models a Python exception with message `e`.  The module-level globals
  `vectorstore`, `llm`, `serper_search` (which may be `None`) are modelled as
  `Option`-valued fields of an `Env` record.
* Distance scores are rationals (`ℚ`); the code only ever compares them with the
  literal `0.7`, so exact rational arithmetic is a faithful model of the float
  comparisons.
* The mutable dict `session_store` is threaded explicitly as an association list;
  `dict.get` / assignment / `pop` become `storeGet` / `storeSet` / `storePop`.
* Python exceptions inside the `try:` body of `agent_decision_flow` are modelled
  by an `Except String AgentResponse` result of `agent_decision_flow_body`; the
  top-level `except Exception` handler is the wrapper `agent_decision_flow`.
  The store returned alongside reflects all mutations made before the raise.
* To reason about which collaborators a turn invokes (claims about calls that
  must or must not happen), every tool function also returns the list of call
  `Event`s it performs; the orchestrator concatenates them in execution order.
* Python string methods are modelled on `String.data`: `pyLower` for `.lower()`
  (ASCII case folding), `pyStrip` for `.strip()`, `pyStartsWith` for
  `.startswith`, and `strContains` for the `in` substring test.
-/

/-! ## Python string primitives -/

def pyLower (s : String) : String := ⟨s.data.map Char.toLower⟩

def pyStrip (s : String) : String :=
  ⟨((s.data.dropWhile Char.isWhitespace).reverse.dropWhile Char.isWhitespace).reverse⟩

def pyStartsWith (s pre : String) : Bool := pre.data.isPrefixOf s.data

def containsSub : List Char → List Char → Bool
  | pat, [] => pat.isEmpty
  | pat, c :: t => pat.isPrefixOf (c :: t) || containsSub pat t

/-- Python substring containment, the operator `pat in s`. -/
def strContains (s pat : String) : Bool := containsSub pat.data s.data

/-! ## Data model and external collaborators -/

/-- A Chroma document: page content plus the optional `source` metadata entry
(`doc.metadata.get('source', 'N/A')` defaults to `"N/A"` when absent). -/
structure Doc where
  page_content : String
  source : Option String
  deriving DecidableEq, Repr

/-- The vector store oracle: `similarity_search_with_score(query, k)` returns
scored documents (distance ascending) or raises. -/
structure VectorStore where
  search : String → Nat → Except String (List (Doc × ℚ))

/-- The distance threshold `0.7` appearing literally in `retrieve_from_docs`
(`score <= 0.7`) and `check_exact_match` (`score < 0.7`).  Stated in reduced
constructor form so that kernel evaluation works; `scoreThreshold_eq` checks it
is the rational `0.7`. -/
def scoreThreshold : ℚ := Rat.mk' 7 10

/-- The inputs of each prompt template piped into the LLM by the backend. -/
inductive PromptInput where
  | rag (context question : String)
  | webSynthesis (question search_results : String)
  | relevanceGrader (question context : String)
  | clarification (question : String)
  | rephrase (original_question clarification_detail : String)
  | finetuneResponse (question response_context : String)
  deriving DecidableEq, Repr

/-- The LLM oracle: one `prompt | llm | StrOutputParser()` invocation. -/
structure LLM where
  invoke : PromptInput → Except String String

/-- The Serper web-search oracle (`serper_search.run`). -/
structure Serper where
  run : String → Except String String

/-- The module-level component globals of `app.py` (each may be `None`). -/
structure Env where
  vectorstore : Option VectorStore
  llm : Option LLM
  serper_search : Option Serper

/-- One `session_store` entry: the per-session dict holding the keys
`last_agent_action` and `last_query`. -/
structure Session where
  last_agent_action : String
  last_query : String
  deriving DecidableEq, Repr

/-- The `session_store` dict, as an association list keyed by session id. -/
abbrev SessionStore := List (String × Session)

/-- Python `session_store.get(session_id, default)` with an empty default. -/
def storeGet (store : SessionStore) (sid : String) : Option Session :=
  (store.find? (fun p => p.1 == sid)).map Prod.snd

/-- Python assignment of a fresh entry to `session_store` at `session_id`. -/
def storeSet (store : SessionStore) (sid : String) (s : Session) : SessionStore :=
  (sid, s) :: store.filter (fun p => p.1 != sid)

/-- Python `session_store.pop(session_id, None)`; the popped value is unused. -/
def storePop (store : SessionStore) (sid : String) : SessionStore :=
  store.filter (fun p => p.1 != sid)

/-- The `(answer_text, source_label, sources)` triple returned by
`agent_decision_flow`. -/
abbrev AgentResponse := String × String × List String

/-- Observable collaborator calls made during one turn, in execution order.
Each tool function emits the event for its own invocation; `llmChain` records a
direct `prompt | llm | StrOutputParser()` invocation in the orchestrator. -/
inductive Event where
  | checkForAmbiguity (query : String)
  | checkExactMatch (query : String) (k : Nat)
  | retrieveFromDocs (query : String) (k : Nat)
  | checkRelevance (question context : String)
  | searchWeb (query : String)
  | llmChain (p : PromptInput)
  deriving DecidableEq, Repr

/-- Is this event a run of the Ambiguity Detector? -/
def Event.isAmbiguityCall : Event → Bool
  | .checkForAmbiguity _ => true
  | _ => false

/-! ## Tool functions (`app.py` lines 91–233) -/

/-- The function `retrieve_from_docs` (app.py:91–137): k=8 similarity search, keep chunks with
`score <= 0.7`, join the kept contents with `"\n\n---\n\n"` and deduplicate the
sources; string sentinels for the not-initialized / backend-error / all-filtered
cases. -/
def retrieve_from_docs (vs? : Option VectorStore) (query : String) :
    (String × List String) × List Event :=
  let ev := [Event.retrieveFromDocs query 8]
  match vs? with
  | none => (("Error: Document database not initialized.", []), ev)
  | some vs =>
    match vs.search query 8 with
    | .error e => (("Error during local document retrieval: " ++ e, []), ev)
    | .ok initial_chunks =>
      let filtered_chunks := initial_chunks.filter (fun dc => dc.2 ≤ scoreThreshold)
      if filtered_chunks.isEmpty then
        (("No relevant documents found that meet the quality threshold.", []), ev)
      else
        let final_document_list := filtered_chunks.map Prod.fst
        let context_text :=
          String.intercalate "\n\n---\n\n" (final_document_list.map Doc.page_content)
        let sources := (final_document_list.map (fun d => d.source.getD "N/A")).dedup
        ((context_text, sources), ev)

/-- The function `check_exact_match` (app.py:139–182): the high-confidence trigger.  The
source performs the k=3 scored search twice with identical arguments and ignores
the first result (an inspection block), so a single call models both; it then
returns `("trigger_success", [])` as soon as any chunk has `score < 0.7`, and
`None` when uninitialized, on error, or when no chunk meets the bound. -/
def check_exact_match (vs? : Option VectorStore) (query : String) :
    Option (String × List String) × List Event :=
  let ev := [Event.checkExactMatch query 3]
  match vs? with
  | none => (none, ev)
  | some vs =>
    match vs.search query 3 with
    | .error _ => (none, ev)
    | .ok docs_with_score =>
      if docs_with_score.any (fun dc => dc.2 < scoreThreshold) then
        (some ("trigger_success", []), ev)
      else
        (none, ev)

/-- The function `search_web` (app.py:184–196): Serper search with string sentinels for the
not-initialized and error cases. -/
def search_web (serper? : Option Serper) (query : String) : String × List Event :=
  let ev := [Event.searchWeb query]
  match serper? with
  | none => ("Error: Web search tool not initialized.", ev)
  | some s =>
    match s.run query with
    | .ok results => (results, ev)
    | .error e => ("Error performing web search: " ++ e, ev)

/-- The function `check_relevance` (app.py:198–213): the relevance grader; `True` only when
the LLM call succeeds and `grade.strip().lower().startswith("yes")`. -/
def check_relevance (llm? : Option LLM) (question context : String) :
    Bool × List Event :=
  let ev := [Event.checkRelevance question context]
  match llm? with
  | none => (false, ev)
  | some l =>
    match l.invoke (.relevanceGrader question context) with
    | .error _ => (false, ev)
    | .ok grade => (pyStartsWith (pyLower (pyStrip grade)) "yes", ev)

/-- The function `check_for_ambiguity` (app.py:215–233): returns `some "clear"` when the
non-empty response strips and folds to `"clear"`, the raw response when
otherwise non-empty, and `none` when the LLM is missing, errors, or returns
the empty string (Python truthiness on `response`). -/
def check_for_ambiguity (llm? : Option LLM) (query : String) :
    Option String × List Event :=
  let ev := [Event.checkForAmbiguity query]
  match llm? with
  | none => (none, ev)
  | some l =>
    match l.invoke (.clarification query) with
    | .error _ => (none, ev)
    | .ok response =>
      if response ≠ "" ∧ pyLower (pyStrip response) = "clear" then (some "clear", ev)
      else if response ≠ "" then (some response, ev)
      else (none, ev)

/-- A direct `prompt | llm | StrOutputParser()` build-and-invoke inside
`agent_decision_flow`.  When `llm` is `None` the pipe operator raises a
`TypeError` (modelled by the fixed error string); otherwise the invocation
defers to the LLM oracle. -/
def chainInvoke (llm? : Option LLM) (p : PromptInput) :
    Except String String × List Event :=
  let ev := [Event.llmChain p]
  match llm? with
  | none => (.error "Expected a Runnable, callable or dict.", ev)
  | some l => (l.invoke p, ev)

/-! Sanity checks of the embedding on concrete values. -/

theorem scoreThreshold_eq : scoreThreshold = 0.7 := by
  unfold scoreThreshold
  rw [Rat.mk'_eq_divInt, Rat.divInt_eq_div]
  norm_num

theorem sanity_pyLower : pyLower "OK" = "ok" := by decide

theorem sanity_pyStrip : pyStrip "  yes " = "yes" := by decide

theorem sanity_pyStartsWith : pyStartsWith "yes sir" "yes" = true := by decide

theorem sanity_strContains_hit :
    strContains "Error during local document retrieval: x" "Error" = true := by decide

theorem sanity_strContains_sentinel : strContains
    "No relevant documents found that meet the quality threshold."
    "No relevant documents" = true := by decide

theorem sanity_strContains_miss : strContains "all fine here" "Error" = false := by decide


/-! ## The agent orchestrator (`agent_decision_flow`, app.py:367–472)

The body of the `try:` block is split, following the shape of the source, into
the session-state dispatch (`agent_decision_flow_body`), the fresh-query
ambiguity step (`fresh_query_flow`, the `else:` branch at app.py:407–415
followed by the fall-through), and the hybrid RAG flow that both the fresh path
and the post-clarification path fall into (`main_rag_flow`, app.py:417–467).
Tool results are pairs `(value, events)`; `.1` is the Python return value and
`.2` the call-event list. -/

/-- The hybrid RAG logic (app.py:417–467): the high-confidence trigger, then
either the broad-context high-confidence synthesis or the standard
retrieval → relevance → synthesis / web-permission-fallback path. -/
def main_rag_flow (env : Env) (store : SessionStore) (input_query session_id : String) :
    Except String AgentResponse × SessionStore × List Event :=
  let em := check_exact_match env.vectorstore input_query
  match em.1 with
  | some _ =>
    -- High-confidence trigger found (app.py:420–440).
    let ret := retrieve_from_docs env.vectorstore input_query
    let context_text := ret.1.1
    if strContains context_text "Error" = true ∨
        strContains context_text "No relevant documents" = true then
      (.ok ("I found a potential match but was unable to retrieve the full context.",
            "System Error", []),
       store, em.2 ++ ret.2)
    else
      let synth := chainInvoke env.llm (.rag context_text input_query)
      match synth.1 with
      | .ok final_answer =>
        (.ok (final_answer, "Agent (High-Confidence RAG)", ret.1.2),
         store, em.2 ++ ret.2 ++ synth.2)
      | .error e => (.error e, store, em.2 ++ ret.2 ++ synth.2)
  | none =>
    -- Standard RAG fallback (app.py:442–467).
    let ret := retrieve_from_docs env.vectorstore input_query
    let tool_output := ret.1.1
    let rel :=
      if strContains tool_output "Error" = false ∧
          strContains tool_output "No relevant documents" = false then
        check_relevance env.llm input_query tool_output
      else (false, [])
    if rel.1 then
      let synth := chainInvoke env.llm (.rag tool_output input_query)
      match synth.1 with
      | .ok final_answer =>
        (.ok (final_answer, "Agent + Internal Docs", ret.1.2),
         store, em.2 ++ ret.2 ++ rel.2 ++ synth.2)
      | .error e => (.error e, store, em.2 ++ ret.2 ++ rel.2 ++ synth.2)
    else
      (.ok ("I couldn't find a good answer in the available documents. Would you like me to search the web for you? (yes/no)",
            "Agent (Multi-turn)", []),
       storeSet store session_id ⟨"awaiting_web_permission", input_query⟩,
       em.2 ++ ret.2 ++ rel.2)

/-- The fresh-query path (app.py:407–415 plus fall-through): ambiguity check,
then either the clarification request or `main_rag_flow`. -/
def fresh_query_flow (env : Env) (store : SessionStore) (input_query session_id : String) :
    Except String AgentResponse × SessionStore × List Event :=
  let amb := check_for_ambiguity env.llm input_query
  match amb.1 with
  | some c =>
    if c ≠ "" ∧ c ≠ "clear" then
      (.ok (c, "Agent (Clarification)", []),
       storeSet store session_id ⟨"awaiting_clarification", input_query⟩, amb.2)
    else
      let res := main_rag_flow env store input_query session_id
      (res.1, res.2.1, amb.2 ++ res.2.2)
  | none =>
    let res := main_rag_flow env store input_query session_id
    (res.1, res.2.1, amb.2 ++ res.2.2)

/-- The `try:` body of `agent_decision_flow` (app.py:372–467): dispatch on the
stored session state, then the fresh/fallen-through flow. -/
def agent_decision_flow_body (env : Env) (store : SessionStore)
    (input_query session_id : String) :
    Except String AgentResponse × SessionStore × List Event :=
  match storeGet store session_id with
  | some s =>
    if s.last_agent_action = "awaiting_web_permission" then
      -- Multi-turn logic for web permission (app.py:380–394).
      if pyLower input_query ∈ (["yes", "y", "sure", "ok"] : List String) then
        let web := search_web env.serper_search s.last_query
        let store' := storePop store session_id
        let synth := chainInvoke env.llm (.webSynthesis s.last_query web.1)
        match synth.1 with
        | .ok final_answer =>
          (.ok (final_answer, "Agent + Web Search", []), store', web.2 ++ synth.2)
        | .error e => (.error e, store', web.2 ++ synth.2)
      else
        (.ok ("Understood. I will not perform a web search at this time.",
              "Agent Response", []),
         storePop store session_id, [])
    else if s.last_agent_action = "awaiting_clarification" then
      -- Clarification resume (app.py:397–406): rephrase, pop, fall through.
      let reph := chainInvoke env.llm (.rephrase s.last_query input_query)
      match reph.1 with
      | .error e => (.error e, store, reph.2)
      | .ok new_query =>
        let res := main_rag_flow env (storePop store session_id) new_query session_id
        (res.1, res.2.1, reph.2 ++ res.2.2)
    else
      fresh_query_flow env store input_query session_id
  | none => fresh_query_flow env store input_query session_id

/-- The function `agent_decision_flow` (app.py:367–472): the `try/except` wrapper that turns
any uncaught exception into the `"System Error"` response. -/
def agent_decision_flow (env : Env) (store : SessionStore)
    (input_query session_id : String) :
    AgentResponse × SessionStore × List Event :=
  let body := agent_decision_flow_body env store input_query session_id
  match body.1 with
  | .ok r => (r, body.2.1, body.2.2)
  | .error e =>
    (("An internal agent error occurred: " ++ e, "System Error", []),
     body.2.1, body.2.2)

/-- The source label a body result produces after the top-level handler. -/
def resLabel : Except String AgentResponse → String
  | .ok r => r.2.1
  | .error _ => "System Error"

/-! ## Store lemmas -/

theorem storeGet_storePop_self (store : SessionStore) (sid : String) :
    storeGet (storePop store sid) sid = none := by
  unfold storeGet storePop
  rw [List.find?_eq_none.mpr, Option.map_none']
  intro x hx
  have hne := (List.mem_filter.mp hx).2
  simp only [bne_iff_ne, ne_eq] at hne
  simp [hne]

theorem storeGet_storeSet_self (store : SessionStore) (sid : String) (s : Session) :
    storeGet (storeSet store sid s) sid = some s := by
  unfold storeGet storeSet
  rw [List.find?_cons_of_pos]
  · rfl
  · simp

/-! ## Trace lemmas: each tool call contributes exactly its own event -/

theorem check_exact_match_trace (vs? : Option VectorStore) (q : String) :
    (check_exact_match vs? q).2 = [Event.checkExactMatch q 3] := by
  unfold check_exact_match
  cases vs? with
  | none => rfl
  | some vs =>
    rcases h : vs.search q 3 with e | l <;> simp only [h]
    split <;> rfl

theorem retrieve_from_docs_trace (vs? : Option VectorStore) (q : String) :
    (retrieve_from_docs vs? q).2 = [Event.retrieveFromDocs q 8] := by
  unfold retrieve_from_docs
  cases vs? with
  | none => rfl
  | some vs =>
    rcases h : vs.search q 8 with e | l <;> simp only [h]
    split <;> rfl

theorem search_web_trace (serper? : Option Serper) (q : String) :
    (search_web serper? q).2 = [Event.searchWeb q] := by
  unfold search_web
  cases serper? with
  | none => rfl
  | some s => rcases h : s.run q with e | r <;> simp only [h]

theorem check_relevance_trace (llm? : Option LLM) (question context : String) :
    (check_relevance llm? question context).2 = [Event.checkRelevance question context] := by
  unfold check_relevance
  cases llm? with
  | none => rfl
  | some l => rcases h : l.invoke (.relevanceGrader question context) with e | g <;> simp only [h]

theorem check_for_ambiguity_trace (llm? : Option LLM) (q : String) :
    (check_for_ambiguity llm? q).2 = [Event.checkForAmbiguity q] := by
  unfold check_for_ambiguity
  cases llm? with
  | none => rfl
  | some l =>
    rcases h : l.invoke (.clarification q) with e | r <;> simp only [h]
    split
    · rfl
    · split <;> rfl

theorem chainInvoke_trace (llm? : Option LLM) (p : PromptInput) :
    (chainInvoke llm? p).2 = [Event.llmChain p] := by
  cases llm? <;> rfl

/-- A non-`none` ambiguity result is `"clear"` or a non-empty string. -/
theorem check_for_ambiguity_shape (llm? : Option LLM) (q : String) (c : String)
    (h : (check_for_ambiguity llm? q).1 = some c) : c = "clear" ∨ c ≠ "" := by
  unfold check_for_ambiguity at h
  cases llm? with
  | none => exact Option.noConfusion h
  | some l =>
    rcases hi : l.invoke (.clarification q) with e | r <;> simp only [hi] at h
    · exact Option.noConfusion h
    · split at h
      · injection h with h'
        left; exact h'.symm
      · split at h
        · injection h with h'
          rename_i hr
          right; rw [← h']; exact hr
        · exact Option.noConfusion h

/-! ## Case-analysis lemmas for the flow components -/

/-- The function `main_rag_flow` leaves the store unchanged except on the web-permission
fallback, which installs the `awaiting_web_permission` entry and answers with
the `"Agent (Multi-turn)"` label. -/
theorem main_rag_flow_store (env : Env) (store : SessionStore) (q sid : String) :
    (main_rag_flow env store q sid).2.1 = store ∨
    ((main_rag_flow env store q sid).2.1 =
        storeSet store sid ⟨"awaiting_web_permission", q⟩ ∧
     resLabel (main_rag_flow env store q sid).1 = "Agent (Multi-turn)") := by
  unfold main_rag_flow
  rcases hem : (check_exact_match env.vectorstore q).1 with _ | x <;> simp only [hem] <;>
    repeat' split
  all_goals first | (left; rfl) | (right; exact ⟨rfl, rfl⟩)

/-- The function `fresh_query_flow` leaves the store unchanged except when it installs the
clarification entry (label `"Agent (Clarification)"`) or defers to the
web-permission fallback of `main_rag_flow` (label `"Agent (Multi-turn)"`). -/
theorem fresh_query_flow_store (env : Env) (store : SessionStore) (q sid : String) :
    (fresh_query_flow env store q sid).2.1 = store ∨
    ((fresh_query_flow env store q sid).2.1 =
        storeSet store sid ⟨"awaiting_clarification", q⟩ ∧
     resLabel (fresh_query_flow env store q sid).1 = "Agent (Clarification)") ∨
    ((fresh_query_flow env store q sid).2.1 =
        storeSet store sid ⟨"awaiting_web_permission", q⟩ ∧
     resLabel (fresh_query_flow env store q sid).1 = "Agent (Multi-turn)") := by
  unfold fresh_query_flow
  rcases hamb : (check_for_ambiguity env.llm q).1 with _ | c <;> simp only [hamb]
  · rcases main_rag_flow_store env store q sid with h | ⟨h1, h2⟩
    · left; exact h
    · right; right; exact ⟨h1, h2⟩
  · split
    · right; left; exact ⟨rfl, rfl⟩
    · rcases main_rag_flow_store env store q sid with h | ⟨h1, h2⟩
      · left; exact h
      · right; right; exact ⟨h1, h2⟩

/-- The top-level handler in terms of the body. -/
theorem agent_decision_flow_eq (env : Env) (store : SessionStore) (q sid : String) :
    agent_decision_flow env store q sid =
      ((match (agent_decision_flow_body env store q sid).1 with
        | .ok r => r
        | .error e => ("An internal agent error occurred: " ++ e, "System Error", [])),
       (agent_decision_flow_body env store q sid).2.1,
       (agent_decision_flow_body env store q sid).2.2) := by
  unfold agent_decision_flow
  rcases h : (agent_decision_flow_body env store q sid).1 with e | r <;>
    simp only [h]

theorem adf_store (env : Env) (store : SessionStore) (q sid : String) :
    (agent_decision_flow env store q sid).2.1 =
      (agent_decision_flow_body env store q sid).2.1 := by
  rw [agent_decision_flow_eq]

theorem adf_trace (env : Env) (store : SessionStore) (q sid : String) :
    (agent_decision_flow env store q sid).2.2 =
      (agent_decision_flow_body env store q sid).2.2 := by
  rw [agent_decision_flow_eq]

theorem adf_label (env : Env) (store : SessionStore) (q sid : String) :
    (agent_decision_flow env store q sid).1.2.1 =
      resLabel (agent_decision_flow_body env store q sid).1 := by
  rw [agent_decision_flow_eq]
  rcases h : (agent_decision_flow_body env store q sid).1 with e | r <;>
    simp only [h] <;> rfl

/-! ## Branch-outcome lemmas for `main_rag_flow` -/

/-- Standard path, context flagged by the substring sentinel test: the
web-permission fallback fires and the Relevance Grader is never called. -/
theorem main_flow_fallback_sentinel (env : Env) (store : SessionStore) (q sid : String)
    (hcem : (check_exact_match env.vectorstore q).1 = none)
    (hctx : strContains (retrieve_from_docs env.vectorstore q).1.1 "Error" = true ∨
            strContains (retrieve_from_docs env.vectorstore q).1.1 "No relevant documents" = true) :
    main_rag_flow env store q sid =
      (.ok ("I couldn't find a good answer in the available documents. Would you like me to search the web for you? (yes/no)",
            "Agent (Multi-turn)", []),
       storeSet store sid ⟨"awaiting_web_permission", q⟩,
       [Event.checkExactMatch q 3, Event.retrieveFromDocs q 8]) := by
  have hcond : ¬ (strContains (retrieve_from_docs env.vectorstore q).1.1 "Error" = false ∧
      strContains (retrieve_from_docs env.vectorstore q).1.1 "No relevant documents" = false) := by
    rcases hctx with h | h <;> simp [h]
  unfold main_rag_flow
  simp only [hcem]
  rw [if_neg hcond]
  simp [check_exact_match_trace, retrieve_from_docs_trace]

/-- Standard path, clean context but the Relevance Grader declines: the
web-permission fallback fires after the relevance call. -/
theorem main_flow_fallback_not_relevant (env : Env) (store : SessionStore) (q sid : String)
    (hcem : (check_exact_match env.vectorstore q).1 = none)
    (h1 : strContains (retrieve_from_docs env.vectorstore q).1.1 "Error" = false)
    (h2 : strContains (retrieve_from_docs env.vectorstore q).1.1 "No relevant documents" = false)
    (hrel : (check_relevance env.llm q (retrieve_from_docs env.vectorstore q).1.1).1 = false) :
    main_rag_flow env store q sid =
      (.ok ("I couldn't find a good answer in the available documents. Would you like me to search the web for you? (yes/no)",
            "Agent (Multi-turn)", []),
       storeSet store sid ⟨"awaiting_web_permission", q⟩,
       [Event.checkExactMatch q 3, Event.retrieveFromDocs q 8,
        Event.checkRelevance q (retrieve_from_docs env.vectorstore q).1.1]) := by
  unfold main_rag_flow
  simp only [hcem]
  rw [if_pos (And.intro h1 h2)]
  rw [if_neg (by simp [hrel])]
  simp [check_exact_match_trace, retrieve_from_docs_trace, check_relevance_trace]

/-- High-confidence path, context flagged by the substring sentinel test: the
degraded `"System Error"` response, with no synthesis call. -/
theorem main_flow_highconf_sentinel (env : Env) (store : SessionStore) (q sid : String)
    (x : String × List String)
    (hcem : (check_exact_match env.vectorstore q).1 = some x)
    (hctx : strContains (retrieve_from_docs env.vectorstore q).1.1 "Error" = true ∨
            strContains (retrieve_from_docs env.vectorstore q).1.1 "No relevant documents" = true) :
    main_rag_flow env store q sid =
      (.ok ("I found a potential match but was unable to retrieve the full context.",
            "System Error", []),
       store,
       [Event.checkExactMatch q 3, Event.retrieveFromDocs q 8]) := by
  unfold main_rag_flow
  simp only [hcem]
  rw [if_pos hctx]
  simp [check_exact_match_trace, retrieve_from_docs_trace]

/-- High-confidence path, clean context: synthesis over the k=8 multi-passage
context with the `"Agent (High-Confidence RAG)"` label. -/
theorem main_flow_highconf_clean (env : Env) (store : SessionStore) (q sid : String)
    (x : String × List String)
    (hcem : (check_exact_match env.vectorstore q).1 = some x)
    (h1 : strContains (retrieve_from_docs env.vectorstore q).1.1 "Error" = false)
    (h2 : strContains (retrieve_from_docs env.vectorstore q).1.1 "No relevant documents" = false) :
    main_rag_flow env store q sid =
      ((match (chainInvoke env.llm (.rag (retrieve_from_docs env.vectorstore q).1.1 q)).1 with
        | .ok fa => .ok (fa, "Agent (High-Confidence RAG)", (retrieve_from_docs env.vectorstore q).1.2)
        | .error e => .error e),
       store,
       [Event.checkExactMatch q 3, Event.retrieveFromDocs q 8,
        Event.llmChain (.rag (retrieve_from_docs env.vectorstore q).1.1 q)]) := by
  unfold main_rag_flow
  simp only [hcem]
  rw [if_neg (by simp [h1, h2])]
  rcases hsy : (chainInvoke env.llm
      (.rag (retrieve_from_docs env.vectorstore q).1.1 q)).1 with e | r <;>
    simp only [hsy] <;>
    simp [check_exact_match_trace, retrieve_from_docs_trace, chainInvoke_trace]

/-- The Confidence Classifier runs first in `main_rag_flow`. -/
theorem main_rag_flow_cem_mem (env : Env) (store : SessionStore) (q sid : String) :
    Event.checkExactMatch q 3 ∈ (main_rag_flow env store q sid).2.2 := by
  unfold main_rag_flow
  rcases hem : (check_exact_match env.vectorstore q).1 with _ | x <;> simp only [hem] <;>
    repeat' split
  all_goals simp [check_exact_match_trace]

/-- The function `main_rag_flow` never runs the Ambiguity Detector. -/
theorem main_rag_flow_no_ambiguity (env : Env) (store : SessionStore) (q sid : String) :
    ((main_rag_flow env store q sid).2.2).all (fun e => !e.isAmbiguityCall) = true := by
  unfold main_rag_flow
  rcases hem : (check_exact_match env.vectorstore q).1 with _ | x <;> simp only [hem] <;>
    repeat' split
  all_goals
    simp [check_exact_match_trace, retrieve_from_docs_trace, check_relevance_trace,
      chainInvoke_trace, Event.isAmbiguityCall]

/-! ## Branch-outcome lemmas for `agent_decision_flow_body` -/

/-- Web-permission state, affirmative input: web search on the stored query,
pop, then the WEB-mode synthesis. -/
theorem body_web_affirm (env : Env) (store : SessionStore) (q sid : String) (s : Session)
    (hs : storeGet store sid = some s)
    (hact : s.last_agent_action = "awaiting_web_permission")
    (haff : pyLower q ∈ (["yes", "y", "sure", "ok"] : List String)) :
    agent_decision_flow_body env store q sid =
      ((match (chainInvoke env.llm
          (.webSynthesis s.last_query (search_web env.serper_search s.last_query).1)).1 with
        | .ok fa => .ok (fa, "Agent + Web Search", [])
        | .error e => .error e),
       storePop store sid,
       [Event.searchWeb s.last_query,
        Event.llmChain (.webSynthesis s.last_query (search_web env.serper_search s.last_query).1)]) := by
  unfold agent_decision_flow_body
  simp only [hs]
  rw [if_pos hact, if_pos haff]
  rcases hsy : (chainInvoke env.llm
      (.webSynthesis s.last_query (search_web env.serper_search s.last_query).1)).1 with e | r <;>
    simp only [hsy] <;> simp [search_web_trace, chainInvoke_trace]

/-- Web-permission state, any other input: fixed decline, pop, no calls. -/
theorem body_web_decline (env : Env) (store : SessionStore) (q sid : String) (s : Session)
    (hs : storeGet store sid = some s)
    (hact : s.last_agent_action = "awaiting_web_permission")
    (haff : pyLower q ∉ (["yes", "y", "sure", "ok"] : List String)) :
    agent_decision_flow_body env store q sid =
      (.ok ("Understood. I will not perform a web search at this time.",
            "Agent Response", []),
       storePop store sid, []) := by
  unfold agent_decision_flow_body
  simp only [hs]
  rw [if_pos hact, if_neg haff]

/-- Clarification state, rephraser succeeds: pop, then `main_rag_flow` on the
rephrased query. -/
theorem body_clarification_ok (env : Env) (store : SessionStore) (q sid : String)
    (s : Session) (rq : String)
    (hs : storeGet store sid = some s)
    (hact : s.last_agent_action = "awaiting_clarification")
    (hr : (chainInvoke env.llm (.rephrase s.last_query q)).1 = .ok rq) :
    agent_decision_flow_body env store q sid =
      ((main_rag_flow env (storePop store sid) rq sid).1,
       (main_rag_flow env (storePop store sid) rq sid).2.1,
       Event.llmChain (.rephrase s.last_query q) ::
         (main_rag_flow env (storePop store sid) rq sid).2.2) := by
  unfold agent_decision_flow_body
  simp only [hs]
  rw [if_neg (by rw [hact]; decide), if_pos hact]
  simp only [hr]
  simp [chainInvoke_trace]

/-- Clarification state, rephraser raises: the exception escapes with the
session entry still in place. -/
theorem body_clarification_err (env : Env) (store : SessionStore) (q sid : String)
    (s : Session) (e : String)
    (hs : storeGet store sid = some s)
    (hact : s.last_agent_action = "awaiting_clarification")
    (hr : (chainInvoke env.llm (.rephrase s.last_query q)).1 = .error e) :
    agent_decision_flow_body env store q sid =
      (.error e, store, [Event.llmChain (.rephrase s.last_query q)]) := by
  unfold agent_decision_flow_body
  simp only [hs]
  rw [if_neg (by rw [hact]; decide), if_pos hact]
  simp only [hr]
  simp [chainInvoke_trace]

/-- No stored session: the fresh-query path runs. -/
theorem body_fresh (env : Env) (store : SessionStore) (q sid : String)
    (hs : storeGet store sid = none) :
    agent_decision_flow_body env store q sid = fresh_query_flow env store q sid := by
  unfold agent_decision_flow_body
  simp only [hs]

/-! ## Substring facts used for the error-conversion claim -/

theorem listIsPrefixOf_refl (l : List Char) : l.isPrefixOf l = true := by
  induction l with
  | nil => rfl
  | cons a t ih => simp [List.isPrefixOf, ih]

theorem containsSub_append (pre pat : List Char) : containsSub pat (pre ++ pat) = true := by
  induction pre with
  | nil =>
    cases pat with
    | nil => rfl
    | cons c t => simp [containsSub, listIsPrefixOf_refl]
  | cons a t ih => simp [containsSub, ih]

theorem strContains_append_self (pre e : String) :
    strContains (pre ++ e) e = true := by
  unfold strContains
  have hdata : (pre ++ e).data = pre.data ++ e.data := rfl
  rw [hdata]
  exact containsSub_append _ _

/-! ## Claim C9 -/

/-- Claim C9: `check_relevance(question, context)` returns true if and only if
the language-model call succeeds and its trimmed, case-folded output starts
with `"yes"`; with no model or on a model error it returns false, so a grading
failure never reports relevance. -/
theorem c9_check_relevance_iff (llm? : Option LLM) (question context : String) :
    (check_relevance llm? question context).1 = true ↔
      ∃ l, llm? = some l ∧ ∃ out,
        l.invoke (.relevanceGrader question context) = .ok out ∧
        pyStartsWith (pyLower (pyStrip out)) "yes" = true := by
  unfold check_relevance
  cases llm? with
  | none => simp
  | some l =>
    rcases hi : l.invoke (.relevanceGrader question context) with e | g <;> simp [hi]

/-- LLM used for the C9 witness. -/
def llmC9 : LLM :=
  ⟨fun p => match p with
    | .relevanceGrader _ _ => .ok " YES, the context answers it."
    | _ => .ok "clear"⟩

/-- Witness for C9 at a concrete grader output. -/
theorem c9_witness :
    (check_relevance (some llmC9) "q" "ctx").1 = true :=
  (c9_check_relevance_iff (some llmC9) "q" "ctx").mpr
    ⟨llmC9, rfl, " YES, the context answers it.", rfl, by decide⟩

/-! ## Claim C10 -/

/-- Vector store for claim C10: every search returns a single passage at
distance exactly `0.7`. -/
def vsC10 : VectorStore :=
  ⟨fun _ _ => .ok [(⟨"Our refund policy lasts 30 days.", some "policies.txt"⟩, scoreThreshold)]⟩

/-- Claim C10: a passage at distance exactly `0.7` is kept by the retrieval
filter (`score <= 0.7`) but does not fire the high-confidence trigger
(`score < 0.7`), so a retrieval outcome exists with non-empty filtered context
while the Confidence Classifier is false. -/
theorem c10_boundary_score :
    (scoreThreshold ≤ scoreThreshold) ∧ ¬ (scoreThreshold < scoreThreshold) ∧
    (check_exact_match (some vsC10) "What is the refund policy?").1 = none ∧
    (retrieve_from_docs (some vsC10) "What is the refund policy?").1 =
      ("Our refund policy lasts 30 days.", ["policies.txt"]) := by
  refine ⟨by decide, by decide, by decide, by decide⟩

/-! ## Claim C7 -/

/-- Claim C7: on a fresh session, when the Ambiguity Detector returns a
clarification question, the flow stores `(awaiting_clarification, original
query)`, returns the question verbatim under `"Agent (Clarification)"`, and the
only collaborator call of the turn is the ambiguity check itself — no retrieval,
confidence check, or synthesis happens. -/
theorem c7_clarification_halts (env : Env) (store : SessionStore) (q sid c : String)
    (hs : storeGet store sid = none)
    (ha : (check_for_ambiguity env.llm q).1 = some c)
    (hc : c ≠ "clear") :
    agent_decision_flow env store q sid =
      ((c, "Agent (Clarification)", []),
       storeSet store sid ⟨"awaiting_clarification", q⟩,
       [Event.checkForAmbiguity q]) := by
  have hne : c ≠ "" := by
    rcases check_for_ambiguity_shape env.llm q c ha with h | h
    · exact absurd h hc
    · exact h
  rw [agent_decision_flow_eq, body_fresh env store q sid hs]
  unfold fresh_query_flow
  simp only [ha]
  rw [if_pos (And.intro hne hc)]
  simp [check_for_ambiguity_trace]

/-- LLM for the C7 witness: flags the sustainability question from the spec. -/
def llmC7 : LLM :=
  ⟨fun p => match p with
    | .clarification _ => .ok "Which company are you referring to in this question?"
    | _ => .ok "clear"⟩

/-- Components for the C7 witness. -/
def envC7 : Env := ⟨none, some llmC7, none⟩

/-- Witness for C7: the sustainability scenario of the spec on a fresh session. -/
theorem c7_witness :
    agent_decision_flow envC7 [] "What are your sustainability initiatives?" "s7" =
      (("Which company are you referring to in this question?", "Agent (Clarification)", []),
       storeSet [] "s7" ⟨"awaiting_clarification", "What are your sustainability initiatives?"⟩,
       [Event.checkForAmbiguity "What are your sustainability initiatives?"]) :=
  c7_clarification_halts envC7 [] "What are your sustainability initiatives?" "s7"
    "Which company are you referring to in this question?" rfl (by decide) (by decide)

/-! ## Claim C4 -/

/-- Claim C4: for every input the flow returns exactly one triple (it is a
total function into `AgentResponse × SessionStore × List Event`); a body that
ends in an exception is converted by the top-level handler into a response
whose text contains the error detail, labelled `"System Error"` with empty
sources, and an ordinary body result passes through unchanged — no fault
escapes `agent_decision_flow`. -/
theorem c4_total_and_error_conversion (env : Env) (store : SessionStore) (q sid : String) :
    (∀ r, (agent_decision_flow_body env store q sid).1 = .ok r →
       (agent_decision_flow env store q sid).1 = r) ∧
    (∀ e, (agent_decision_flow_body env store q sid).1 = .error e →
       (agent_decision_flow env store q sid).1 =
         ("An internal agent error occurred: " ++ e, "System Error", []) ∧
       strContains ("An internal agent error occurred: " ++ e) e = true) := by
  constructor
  · intro r h
    rw [agent_decision_flow_eq]
    simp only [h]
  · intro e h
    refine ⟨?_, strContains_append_self _ e⟩
    rw [agent_decision_flow_eq]
    simp only [h]

/-- Components for the C4 witness: no LLM, so the clarification-resume chain
raises inside the body. -/
def envC4 : Env := ⟨none, none, none⟩

/-- Store for the C4 witness. -/
def storeC4 : SessionStore := [("s4", ⟨"awaiting_clarification", "original question"⟩)]

/-- Witness for C4: a raising body is converted to the `"System Error"`
response whose text contains the error detail. -/
theorem c4_witness :
    (agent_decision_flow envC4 storeC4 "detail" "s4").1 =
      ("An internal agent error occurred: " ++ "Expected a Runnable, callable or dict.",
       "System Error", []) ∧
    strContains ("An internal agent error occurred: " ++ "Expected a Runnable, callable or dict.")
      "Expected a Runnable, callable or dict." = true :=
  (c4_total_and_error_conversion envC4 storeC4 "detail" "s4").2
    "Expected a Runnable, callable or dict." rfl

/-! ## Claim C5 -/

/-- Claim C5: on the non-high-confidence path, when the retrieved context fails
the sentinel test (`"Error"`/`"No relevant documents"` found — the form every
empty/error sentinel takes) or the Relevance Grader declines a clean context,
the flow stores `(awaiting_web_permission, query)`, returns the fixed
permission request under `"Agent (Multi-turn)"`, and performs no web search;
in the sentinel case the trace shows the Relevance Grader is never invoked. -/
theorem c5_standard_fallback (env : Env) (store : SessionStore) (q sid : String)
    (hcem : (check_exact_match env.vectorstore q).1 = none) :
    (strContains (retrieve_from_docs env.vectorstore q).1.1 "Error" = true ∨
     strContains (retrieve_from_docs env.vectorstore q).1.1 "No relevant documents" = true →
      main_rag_flow env store q sid =
        (.ok ("I couldn't find a good answer in the available documents. Would you like me to search the web for you? (yes/no)",
              "Agent (Multi-turn)", []),
         storeSet store sid ⟨"awaiting_web_permission", q⟩,
         [Event.checkExactMatch q 3, Event.retrieveFromDocs q 8])) ∧
    (strContains (retrieve_from_docs env.vectorstore q).1.1 "Error" = false →
     strContains (retrieve_from_docs env.vectorstore q).1.1 "No relevant documents" = false →
     (check_relevance env.llm q (retrieve_from_docs env.vectorstore q).1.1).1 = false →
      main_rag_flow env store q sid =
        (.ok ("I couldn't find a good answer in the available documents. Would you like me to search the web for you? (yes/no)",
              "Agent (Multi-turn)", []),
         storeSet store sid ⟨"awaiting_web_permission", q⟩,
         [Event.checkExactMatch q 3, Event.retrieveFromDocs q 8,
          Event.checkRelevance q (retrieve_from_docs env.vectorstore q).1.1])) :=
  ⟨fun h => main_flow_fallback_sentinel env store q sid hcem h,
   fun h1 h2 h3 => main_flow_fallback_not_relevant env store q sid hcem h1 h2 h3⟩

/-- Components for the C5 witness: no vector store, so retrieval returns the
not-initialized sentinel. -/
def envC5 : Env := ⟨none, none, none⟩

/-- Witness for C5 at the sentinel case: permission request, stored pending
action, and no relevance or web-search event. -/
theorem c5_witness :
    main_rag_flow envC5 [] "query about policies" "s5" =
      (.ok ("I couldn't find a good answer in the available documents. Would you like me to search the web for you? (yes/no)",
            "Agent (Multi-turn)", []),
       storeSet [] "s5" ⟨"awaiting_web_permission", "query about policies"⟩,
       [Event.checkExactMatch "query about policies" 3,
        Event.retrieveFromDocs "query about policies" 8]) :=
  (c5_standard_fallback envC5 [] "query about policies" "s5" rfl).1 (Or.inl (by decide))

/-! ## Claim C6 -/

/-- Claim C6: whenever the Confidence Classifier triggers, the flow performs the
independent k=8 retrieval and synthesizes in RAG mode over that multi-passage
context under `"Agent (High-Confidence RAG)"`; if that retrieval's context fails
the sentinel test instead, the degraded `"System Error"` response is returned
with no synthesis call. -/
theorem c6_high_confidence (env : Env) (store : SessionStore) (q sid : String)
    (x : String × List String)
    (hcem : (check_exact_match env.vectorstore q).1 = some x) :
    (strContains (retrieve_from_docs env.vectorstore q).1.1 "Error" = true ∨
     strContains (retrieve_from_docs env.vectorstore q).1.1 "No relevant documents" = true →
      main_rag_flow env store q sid =
        (.ok ("I found a potential match but was unable to retrieve the full context.",
              "System Error", []),
         store, [Event.checkExactMatch q 3, Event.retrieveFromDocs q 8])) ∧
    (strContains (retrieve_from_docs env.vectorstore q).1.1 "Error" = false →
     strContains (retrieve_from_docs env.vectorstore q).1.1 "No relevant documents" = false →
     ∀ ans, (chainInvoke env.llm (.rag (retrieve_from_docs env.vectorstore q).1.1 q)).1 = .ok ans →
      main_rag_flow env store q sid =
        (.ok (ans, "Agent (High-Confidence RAG)", (retrieve_from_docs env.vectorstore q).1.2),
         store,
         [Event.checkExactMatch q 3, Event.retrieveFromDocs q 8,
          Event.llmChain (.rag (retrieve_from_docs env.vectorstore q).1.1 q)])) := by
  constructor
  · exact fun h => main_flow_highconf_sentinel env store q sid x hcem h
  · intro h1 h2 ans hok
    rw [main_flow_highconf_clean env store q sid x hcem h1 h2]
    simp only [hok]

/-- The distance `0.42` from the refund-policy scenario of the spec. -/
def q42 : ℚ := Rat.mk' 21 50

/-- Vector store for the C6 witness: one close passage at distance `0.42`. -/
def vsC6 : VectorStore :=
  ⟨fun _ _ => .ok [(⟨"Our refund policy lasts 30 days.", some "policies.txt"⟩, q42)]⟩

/-- LLM for the C6 witness. -/
def llmC6 : LLM :=
  ⟨fun p => match p with
    | .rag _ _ => .ok "You can get a refund within 30 days."
    | _ => .ok "clear"⟩

/-- Components for the C6 witness. -/
def envC6 : Env := ⟨some vsC6, some llmC6, none⟩

/-- Witness for C6: the refund-policy scenario at distance `0.42`. -/
theorem c6_witness :
    main_rag_flow envC6 [] "What is the refund policy?" "s6" =
      (.ok ("You can get a refund within 30 days.", "Agent (High-Confidence RAG)",
            ["policies.txt"]),
       [],
       [Event.checkExactMatch "What is the refund policy?" 3,
        Event.retrieveFromDocs "What is the refund policy?" 8,
        Event.llmChain (.rag "Our refund policy lasts 30 days." "What is the refund policy?")]) := by
  have h := (c6_high_confidence envC6 [] "What is the refund policy?" "s6"
      ("trigger_success", []) rfl).2 (by decide) (by decide)
    "You can get a refund within 30 days." rfl
  exact h.trans (by rfl)

/-! ## Claim C8 -/

/-- The successful-retrieval result shape, for stating C8. -/
theorem retrieve_from_docs_success (vs? : Option VectorStore) (q : String)
    (vs : VectorStore) (chunks : List (Doc × ℚ))
    (hvs : vs? = some vs) (hsearch : vs.search q 8 = .ok chunks)
    (hne : (chunks.filter (fun dc => dc.2 ≤ scoreThreshold)).isEmpty = false) :
    (retrieve_from_docs vs? q).1 =
      (String.intercalate "\n\n---\n\n"
        (((chunks.filter (fun dc => dc.2 ≤ scoreThreshold)).map Prod.fst).map Doc.page_content),
       (((chunks.filter (fun dc => dc.2 ≤ scoreThreshold)).map Prod.fst).map
         (fun d => d.source.getD "N/A")).dedup) := by
  unfold retrieve_from_docs
  simp only [hvs, hsearch]
  rw [if_neg (by simp [hne])]

/-- Claim C8: when retrieval genuinely succeeds with passages but the joined
passage text happens to contain `"Error"` or `"No relevant documents"`, the
flow treats retrieval as failed: the standard path skips the Relevance Grader
and moves to the web-permission request, and the high-confidence path returns
the `"System Error"` response — because the sentinel is detected by a substring
match on the context string. -/
theorem c8_poisoned_context (env : Env) (store : SessionStore) (q sid : String)
    (vs : VectorStore) (chunks : List (Doc × ℚ))
    (hvs : env.vectorstore = some vs)
    (hsearch : vs.search q 8 = .ok chunks)
    (hne : (chunks.filter (fun dc => dc.2 ≤ scoreThreshold)).isEmpty = false)
    (hctx : strContains (retrieve_from_docs env.vectorstore q).1.1 "Error" = true ∨
            strContains (retrieve_from_docs env.vectorstore q).1.1 "No relevant documents" = true) :
    (retrieve_from_docs env.vectorstore q).1.1 =
      String.intercalate "\n\n---\n\n"
        (((chunks.filter (fun dc => dc.2 ≤ scoreThreshold)).map Prod.fst).map Doc.page_content) ∧
    ((check_exact_match env.vectorstore q).1 = none →
      main_rag_flow env store q sid =
        (.ok ("I couldn't find a good answer in the available documents. Would you like me to search the web for you? (yes/no)",
              "Agent (Multi-turn)", []),
         storeSet store sid ⟨"awaiting_web_permission", q⟩,
         [Event.checkExactMatch q 3, Event.retrieveFromDocs q 8])) ∧
    (∀ x, (check_exact_match env.vectorstore q).1 = some x →
      main_rag_flow env store q sid =
        (.ok ("I found a potential match but was unable to retrieve the full context.",
              "System Error", []),
         store, [Event.checkExactMatch q 3, Event.retrieveFromDocs q 8])) := by
  refine ⟨?_, ?_, ?_⟩
  · rw [retrieve_from_docs_success env.vectorstore q vs chunks hvs hsearch hne]
  · exact fun hcem => main_flow_fallback_sentinel env store q sid hcem hctx
  · exact fun x hcem => main_flow_highconf_sentinel env store q sid x hcem hctx

/-- The poisoned chunk list for the C8 witness: a genuine passage whose text
contains the word `"Error"`, at boundary distance `0.7` so the filter keeps it
but the trigger does not fire. -/
def chunksC8 : List (Doc × ℚ) :=
  [(⟨"An Error was logged on launch day.", some "log.txt"⟩, scoreThreshold)]

/-- Vector store for the C8 witness. -/
def vsC8 : VectorStore := ⟨fun _ _ => .ok chunksC8⟩

/-- Components for the C8 witness. -/
def envC8 : Env := ⟨some vsC8, none, none⟩

/-- Witness for C8: a successful retrieval whose passage text contains
`"Error"` is routed to the web-permission fallback with no relevance call. -/
theorem c8_witness :
    main_rag_flow envC8 [] "what happened at launch" "s8" =
      (.ok ("I couldn't find a good answer in the available documents. Would you like me to search the web for you? (yes/no)",
            "Agent (Multi-turn)", []),
       storeSet [] "s8" ⟨"awaiting_web_permission", "what happened at launch"⟩,
       [Event.checkExactMatch "what happened at launch" 3,
        Event.retrieveFromDocs "what happened at launch" 8]) :=
  (c8_poisoned_context envC8 [] "what happened at launch" "s8" vsC8 chunksC8
    rfl rfl (by decide) (Or.inl (by decide))).2.1 rfl

/-! ## Claim C3 -/

/-- Components for the C3 counterexample (no collaborators are consulted on the
decline branch). -/
def envC3x : Env := ⟨none, none, none⟩

/-- Store for the C3 counterexample. -/
def storeC3x : SessionStore := [("s3", ⟨"awaiting_web_permission", "pending question"⟩)]

/-- Counterexample to claim C3 as stated: the input `" yes"` trims and
case-folds to `"yes"` (the claim's affirmative condition holds), yet the code
lower-cases without trimming, so the turn is treated as a decline: the fixed
decline message is returned under `"Agent Response"` and no web search or
synthesis event occurs. -/
theorem c3_counterexample :
    pyLower (pyStrip " yes") ∈ (["yes", "y", "sure", "ok"] : List String) ∧
    agent_decision_flow envC3x storeC3x " yes" "s3" =
      (("Understood. I will not perform a web search at this time.",
        "Agent Response", []),
       [], []) := by
  refine ⟨by decide, by decide⟩

/-- Claim C3 as amended: the affirmative test is case-folding only — no trim —
so an input is affirmative exactly when its `.lower()` is one of
`"yes"/"y"/"sure"/"ok"`; an affirmative turn searches the web on the stored
pending query, synthesizes in WEB mode on it, clears the session, and (when
synthesis succeeds) answers under `"Agent + Web Search"`; every other input
clears the session with the fixed decline under `"Agent Response"` and no
calls at all. -/
theorem c3_web_permission_gate (env : Env) (store : SessionStore) (q sid : String)
    (s : Session)
    (hs : storeGet store sid = some s)
    (hact : s.last_agent_action = "awaiting_web_permission") :
    (pyLower q ∈ (["yes", "y", "sure", "ok"] : List String) →
      (agent_decision_flow env store q sid).2.2 =
        [Event.searchWeb s.last_query,
         Event.llmChain (.webSynthesis s.last_query
           (search_web env.serper_search s.last_query).1)] ∧
      (agent_decision_flow env store q sid).2.1 = storePop store sid ∧
      (∀ ans, (chainInvoke env.llm (.webSynthesis s.last_query
          (search_web env.serper_search s.last_query).1)).1 = .ok ans →
        (agent_decision_flow env store q sid).1 = (ans, "Agent + Web Search", []))) ∧
    (pyLower q ∉ (["yes", "y", "sure", "ok"] : List String) →
      agent_decision_flow env store q sid =
        (("Understood. I will not perform a web search at this time.",
          "Agent Response", []),
         storePop store sid, [])) := by
  constructor
  · intro haff
    have hb := body_web_affirm env store q sid s hs hact haff
    refine ⟨?_, ?_, ?_⟩
    · rw [adf_trace, hb]
    · rw [adf_store, hb]
    · intro ans hok
      rw [agent_decision_flow_eq, hb]
      simp only [hok]
  · intro haff
    have hb := body_web_decline env store q sid s hs hact haff
    rw [agent_decision_flow_eq, hb]

/-- Serper oracle for the C3 witness. -/
def serperC3 : Serper := ⟨fun _ => .ok "search results text"⟩

/-- LLM for the C3 witness. -/
def llmC3 : LLM :=
  ⟨fun p => match p with
    | .webSynthesis _ _ => .ok "Here is what the web says."
    | _ => .ok "clear"⟩

/-- Components for the C3 witness. -/
def envC3 : Env := ⟨none, some llmC3, some serperC3⟩

/-- Store for the C3 witness. -/
def storeC3 : SessionStore := [("s3", ⟨"awaiting_web_permission", "pending question"⟩)]

/-- Witness for the amended C3: `"OK"` is affirmative (searches on the stored
pending query, clears the session, answers under `"Agent + Web Search"`), while
`"maybe"` declines with no calls. -/
theorem c3_witness :
    (agent_decision_flow envC3 storeC3 "OK" "s3").1 =
      ("Here is what the web says.", "Agent + Web Search", []) ∧
    (agent_decision_flow envC3 storeC3 "OK" "s3").2.1 = [] ∧
    (agent_decision_flow envC3 storeC3 "OK" "s3").2.2 =
      [Event.searchWeb "pending question",
       Event.llmChain (.webSynthesis "pending question" "search results text")] ∧
    agent_decision_flow envC3 storeC3 "maybe" "s3" =
      (("Understood. I will not perform a web search at this time.",
        "Agent Response", []),
       [], []) := by
  have h1 := (c3_web_permission_gate envC3 storeC3 "OK" "s3"
    ⟨"awaiting_web_permission", "pending question"⟩ rfl rfl).1 (by decide)
  have h2 := (c3_web_permission_gate envC3 storeC3 "maybe" "s3"
    ⟨"awaiting_web_permission", "pending question"⟩ rfl rfl).2 (by decide)
  exact ⟨h1.2.2 "Here is what the web says." rfl, h1.2.1, h1.1, h2⟩

/-! ## Claim C1 -/

/-- LLM for the C1 counterexample and witness: rephrases to the Acme query of
the spec, and would flag that query as ambiguous if it were ever asked to. -/
def llmC1x : LLM :=
  ⟨fun p => match p with
    | .rephrase _ _ => .ok "What are Acme Corp's sustainability initiatives?"
    | .clarification _ => .ok "Which company are you referring to in this question?"
    | _ => .ok "clear"⟩

/-- Components for the C1 counterexample and witness. -/
def envC1x : Env := ⟨none, some llmC1x, none⟩

/-- Store for the C1 counterexample and witness. -/
def storeC1x : SessionStore :=
  [("s1", ⟨"awaiting_clarification", "What are your sustainability initiatives?"⟩)]

/-- Counterexample to claim C1 as stated: on the clarification-resume turn the
Confidence Classifier runs on the rephrased query, but the Ambiguity Detector
is never invoked at all (it sits in the `else` branch of the resume test), so
the flow does not resume at step 4. -/
theorem c1_counterexample :
    Event.checkExactMatch "What are Acme Corp's sustainability initiatives?" 3 ∈
      (agent_decision_flow envC1x storeC1x "Acme Corp" "s1").2.2 ∧
    ((agent_decision_flow envC1x storeC1x "Acme Corp" "s1").2.2.all
      (fun e => !e.isAmbiguityCall)) = true := by
  refine ⟨by decide, by decide⟩

/-- Claim C1 as amended: in `AWAITING_CLARIFICATION`, any input is passed to
the Query Rephraser together with the stored pending query; when it succeeds
the session is cleared and the flow resumes at the confidence check (step 5)
on the rephrased query — the Ambiguity Detector is not re-run on it. -/
theorem c1_clarification_resume (env : Env) (store : SessionStore) (q sid : String)
    (s : Session) (rq : String)
    (hs : storeGet store sid = some s)
    (hact : s.last_agent_action = "awaiting_clarification")
    (hr : (chainInvoke env.llm (.rephrase s.last_query q)).1 = .ok rq) :
    agent_decision_flow env store q sid =
      ((match (main_rag_flow env (storePop store sid) rq sid).1 with
        | .ok r => r
        | .error e => ("An internal agent error occurred: " ++ e, "System Error", [])),
       (main_rag_flow env (storePop store sid) rq sid).2.1,
       Event.llmChain (.rephrase s.last_query q) ::
         (main_rag_flow env (storePop store sid) rq sid).2.2) ∧
    Event.checkExactMatch rq 3 ∈ (agent_decision_flow env store q sid).2.2 ∧
    ((agent_decision_flow env store q sid).2.2.all (fun e => !e.isAmbiguityCall)) = true := by
  have hb := body_clarification_ok env store q sid s rq hs hact hr
  refine ⟨?_, ?_, ?_⟩
  · rw [agent_decision_flow_eq, hb]
  · rw [adf_trace, hb]
    exact List.mem_cons_of_mem _ (main_rag_flow_cem_mem env (storePop store sid) rq sid)
  · rw [adf_trace, hb, List.all_cons,
      main_rag_flow_no_ambiguity env (storePop store sid) rq sid]
    rfl

/-- Witness for the amended C1: the Acme scenario of the spec — the rephraser output
drives the resumed flow, the session entry is popped before resuming, and the
trace starts with the rephrase call followed by the confidence check. -/
theorem c1_witness :
    agent_decision_flow envC1x storeC1x "Acme Corp" "s1" =
      ((match (main_rag_flow envC1x (storePop storeC1x "s1")
            "What are Acme Corp's sustainability initiatives?" "s1").1 with
        | .ok r => r
        | .error e => ("An internal agent error occurred: " ++ e, "System Error", [])),
       (main_rag_flow envC1x (storePop storeC1x "s1")
          "What are Acme Corp's sustainability initiatives?" "s1").2.1,
       Event.llmChain (.rephrase "What are your sustainability initiatives?" "Acme Corp") ::
         (main_rag_flow envC1x (storePop storeC1x "s1")
            "What are Acme Corp's sustainability initiatives?" "s1").2.2) ∧
    Event.checkExactMatch "What are Acme Corp's sustainability initiatives?" 3 ∈
      (agent_decision_flow envC1x storeC1x "Acme Corp" "s1").2.2 ∧
    ((agent_decision_flow envC1x storeC1x "Acme Corp" "s1").2.2.all
      (fun e => !e.isAmbiguityCall)) = true :=
  c1_clarification_resume envC1x storeC1x "Acme Corp" "s1"
    ⟨"awaiting_clarification", "What are your sustainability initiatives?"⟩
    "What are Acme Corp's sustainability initiatives?" rfl rfl rfl

/-! ## Claim C2 -/

/-- LLM for the C2 counterexample: the rephrase chain raises. -/
def llmC2x : LLM :=
  ⟨fun p => match p with
    | .rephrase _ _ => .error "model unavailable"
    | _ => .ok "clear"⟩

/-- Components for the C2 counterexample. -/
def envC2x : Env := ⟨none, some llmC2x, none⟩

/-- Store for the C2 counterexample. -/
def storeC2x : SessionStore := [("s2", ⟨"awaiting_clarification", "original question"⟩)]

/-- Counterexample to claim C2 as stated: a turn whose rephrase call raises
returns the `"System Error"` label — which is neither excluded label — yet the
`awaiting_clarification` entry is still in the session store afterwards,
because the exception fires before `session_store.pop`. -/
theorem c2_counterexample :
    (agent_decision_flow envC2x storeC2x "detail" "s2").1.2.1 = "System Error" ∧
    (agent_decision_flow envC2x storeC2x "detail" "s2").1.2.1 ≠ "Agent (Clarification)" ∧
    (agent_decision_flow envC2x storeC2x "detail" "s2").1.2.1 ≠ "Agent (Multi-turn)" ∧
    storeGet (agent_decision_flow envC2x storeC2x "detail" "s2").2.1 "s2" =
      some ⟨"awaiting_clarification", "original question"⟩ := by
  refine ⟨by decide, by decide, by decide, by decide⟩

/-- Claim C2 as amended: on any reachable store (every stored action is one of
the two pending kinds), a turn whose label is neither `"Agent (Clarification)"`
nor `"Agent (Multi-turn)"` leaves no entry for its session id — except the one
turn where the session was `AWAITING_CLARIFICATION` and the Query Rephraser
call failed: that turn answers `"System Error"` with the store untouched. -/
theorem c2_session_cleanup (env : Env) (store : SessionStore) (q sid : String)
    (hwf : ∀ s, storeGet store sid = some s →
       s.last_agent_action = "awaiting_web_permission" ∨
       s.last_agent_action = "awaiting_clarification")
    (h1 : (agent_decision_flow env store q sid).1.2.1 ≠ "Agent (Clarification)")
    (h2 : (agent_decision_flow env store q sid).1.2.1 ≠ "Agent (Multi-turn)") :
    storeGet (agent_decision_flow env store q sid).2.1 sid = none ∨
    (∃ s e, storeGet store sid = some s ∧
      s.last_agent_action = "awaiting_clarification" ∧
      (chainInvoke env.llm (.rephrase s.last_query q)).1 = .error e ∧
      (agent_decision_flow env store q sid).2.1 = store ∧
      (agent_decision_flow env store q sid).1.2.1 = "System Error") := by
  rw [adf_label] at h1 h2
  rw [adf_store, adf_label]
  rcases hs : storeGet store sid with _ | s
  · -- fresh session
    rw [body_fresh env store q sid hs] at h1 h2 ⊢
    rcases fresh_query_flow_store env store q sid with h | ⟨hst, hl⟩ | ⟨hst, hl⟩
    · left; rw [h]; exact hs
    · exact absurd hl h1
    · exact absurd hl h2
  · rcases hwf s hs with ha | ha
    · -- awaiting_web_permission: both sub-branches pop the entry
      by_cases haff : pyLower q ∈ (["yes", "y", "sure", "ok"] : List String)
      · rw [body_web_affirm env store q sid s hs ha haff]
        left
        show storeGet (storePop store sid) sid = none
        exact storeGet_storePop_self store sid
      · rw [body_web_decline env store q sid s hs ha haff]
        left
        show storeGet (storePop store sid) sid = none
        exact storeGet_storePop_self store sid
    · -- awaiting_clarification
      rcases hr : (chainInvoke env.llm (.rephrase s.last_query q)).1 with e | rq
      · rw [body_clarification_err env store q sid s e hs ha hr] at h1 h2 ⊢
        right
        exact ⟨s, e, rfl, ha, hr, rfl, rfl⟩
      · rw [body_clarification_ok env store q sid s rq hs ha hr] at h1 h2 ⊢
        rcases main_rag_flow_store env (storePop store sid) rq sid with h | ⟨hst, hl⟩
        · left
          show storeGet (main_rag_flow env (storePop store sid) rq sid).2.1 sid = none
          rw [h]
          exact storeGet_storePop_self store sid
        · exact absurd hl h2

/-- Vector store for the C2 witness: a clean passage at boundary distance. -/
def vsC2 : VectorStore :=
  ⟨fun _ _ => .ok [(⟨"The travel policy covers rail and air.", some "travel.txt"⟩, scoreThreshold)]⟩

/-- LLM for the C2 witness: clear query, relevant context, successful synthesis. -/
def llmC2 : LLM :=
  ⟨fun p => match p with
    | .clarification _ => .ok "clear"
    | .relevanceGrader _ _ => .ok "yes"
    | .rag _ _ => .ok "Rail and air travel are covered."
    | _ => .ok "unused"⟩

/-- Components for the C2 witness. -/
def envC2 : Env := ⟨some vsC2, some llmC2, none⟩

/-- Witness for the amended C2: a clean internal-docs turn on a fresh session
leaves no entry for the session id. -/
theorem c2_witness :
    storeGet (agent_decision_flow envC2 [] "What does the travel policy cover?" "s2").2.1
      "s2" = none ∨
    (∃ s e, storeGet ([] : SessionStore) "s2" = some s ∧
      s.last_agent_action = "awaiting_clarification" ∧
      (chainInvoke envC2.llm (.rephrase s.last_query "What does the travel policy cover?")).1 =
        .error e ∧
      (agent_decision_flow envC2 [] "What does the travel policy cover?" "s2").2.1 = [] ∧
      (agent_decision_flow envC2 [] "What does the travel policy cover?" "s2").1.2.1 =
        "System Error") :=
  c2_session_cleanup envC2 [] "What does the travel policy cover?" "s2"
    (fun _ h => Option.noConfusion h) (by decide) (by decide)
